import Mathlib

/-!
Verification of the py_engine layer/scene composition engine.

Shallow embedding of:
- src/managers/layer_manager.py  (LayerManager)
- src/scenes/base_scene.py       (BaseScene.forward_input, draw pipeline)
- src/plugins/plugins.py         (register_layer / layer_registry)
- src/managers/input_manager.py  (InputManager.process_event)
- src/transitions/transitions.py (Transition, SimpleTransition)
- src/managers/scene_manager.py  (SceneManager)

Python floats are modelled by exact rationals, pygame colors by RGB
triples of naturals, and stateful methods by explicit state passing.
Methods that perform drawing or call out to other objects additionally
return a trace of the calls they make (`RenderEffect` / `DispatchCall`).
-/

namespace PyEngine

/-- An RGB color triple as passed to pygame `fill` / surface creation. -/
structure Color where
  r : Nat
  g : Nat
  b : Nat
  deriving DecidableEq, Repr

/-- A layer as seen by `LayerManager` and `BaseScene.forward_input`
(src/layers/base_layer.py plus the duck-typed attributes the managers read):
`z` is the ordering key, `persistent` is what
`getattr(layer, "persistent", False)` yields, `hasOnInput` models
`hasattr(layer, "on_input")`, and `consumes` is the value the layer's
`on_input` would report as its result (the dispatching code never reads it,
since it calls `layer.on_input(event)` and then breaks unconditionally).
`lid` is the object identity. -/
structure Layer where
  lid : Nat
  z : Int
  persistent : Bool
  hasOnInput : Bool
  consumes : Bool
  deriving DecidableEq, Repr

/-- The comparison used by `sorted(self.layers, key=lambda l: l.z)`:
compare layers by their `z` ordering key. -/
def layerLE (a b : Layer) : Bool := a.z ≤ b.z

/-- State of a `LayerManager` (src/managers/layer_manager.py):
the `layers` list, the `_sorted_layers` cache, and the `_dirty` flag. -/
structure LayerManager where
  layers : List Layer
  sortedLayers : List Layer
  dirty : Bool
  deriving DecidableEq, Repr

/-- `LayerManager.__init__(layers)`: stores the given list (or `[]`),
empty cache, `_dirty = True`. -/
def LayerManager.init (ls : List Layer) : LayerManager :=
  { layers := ls, sortedLayers := [], dirty := true }

/-- `LayerManager._sort_layers`: when dirty, recompute the cache as
`sorted(self.layers, key=lambda l: l.z)` and reset the flag. Python's
`sorted` is a stable sort by the key; `List.mergeSort` is the stable
sort on lists in Lean, so the two agree element-for-element. -/
def LayerManager.sortLayers (m : LayerManager) : LayerManager :=
  if m.dirty then
    { m with sortedLayers := m.layers.mergeSort layerLE, dirty := false }
  else m

/-- `LayerManager.add_layer`: `self.layers.append(layer); self._dirty = True`. -/
def LayerManager.addLayer (m : LayerManager) (l : Layer) : LayerManager :=
  { m with layers := m.layers ++ [l], dirty := true }

/-- A sequence of `add_layer` calls performed in order. -/
def LayerManager.addLayers (m : LayerManager) (ls : List Layer) : LayerManager :=
  ls.foldl LayerManager.addLayer m

/-- `LayerManager.remove_layer`: removes the layer if present, marks dirty;
silently does nothing otherwise. -/
def LayerManager.removeLayer (m : LayerManager) (l : Layer) : LayerManager :=
  if l ∈ m.layers then { m with layers := m.layers.erase l, dirty := true } else m

/-- `LayerManager.mark_dirty`. -/
def LayerManager.markDirty (m : LayerManager) : LayerManager :=
  { m with dirty := true }

/-- `LayerManager.clear`: keeps only the layers for which
`getattr(layer, "persistent", False)` is true, empties the cache and
marks dirty. It is a total list comprehension: there is no failing path. -/
def LayerManager.clear (m : LayerManager) : LayerManager :=
  { layers := m.layers.filter (fun l => l.persistent),
    sortedLayers := [],
    dirty := true }

/-- `LayerManager.get_sorted_layers(reverse)`: calls `_sort_layers()` and
returns the cache, reversed when `reverse` is true, together with the
manager after the cache refresh. -/
def LayerManager.getSortedLayers (m : LayerManager) (reverse : Bool) :
    List Layer × LayerManager :=
  let m2 := m.sortLayers
  ((if reverse then m2.sortedLayers.reverse else m2.sortedLayers), m2)

/-- `BaseScene.forward_input` (src/scenes/base_scene.py): iterate
`get_sorted_layers(reverse=True)`, call `on_input` on the first layer
that has the attribute, then `break` — the call's result is not
inspected. The value is the list of `lid`s that received the event,
together with the manager after the cache refresh. -/
def forwardInput (m : LayerManager) : List Nat × LayerManager :=
  let res := m.getSortedLayers true
  (match res.1.find? (fun l => l.hasOnInput) with
   | some l => [l.lid]
   | none => [], res.2)

/-- Python's `str.lower()` on the ASCII registry keys used here: map
every character through `Char.toLower`. (Structurally recursive so that
concrete registrations evaluate inside proofs.) -/
def strLower (s : String) : String := String.mk (s.data.map Char.toLower)

/-- The value stored by `register_layer`:
`{"class": cls, "category": category.lower()}`. Layer classes/factories
are identified by a numeric id. -/
structure LayerEntry where
  cls : Nat
  category : String
  deriving DecidableEq, Repr

/-- The `layer_registry` dict of src/plugins/plugins.py together with the
log of duplicate-registration warnings emitted by `logging.warning`
(recorded here as the offending keys, in order). -/
structure LayerRegistry where
  table : String → Option LayerEntry
  warnings : List String

/-- A registry with no entries and no warnings. -/
def LayerRegistry.empty : LayerRegistry :=
  { table := fun _ => none, warnings := [] }

/-- `register_layer(key, category)` applied to a class `cls`
(src/plugins/plugins.py lines 33-47): `lower_key = key.lower()`; if
`lower_key` is already present, emit a duplicate-registration warning;
then `layer_registry[lower_key] = {"class": cls, "category": category.lower()}`
unconditionally (last writer wins; nothing is raised). -/
def registerLayer (reg : LayerRegistry) (key : String) (category : String)
    (cls : Nat) : LayerRegistry :=
  let lowerKey := strLower key
  { table := fun k =>
      if k = lowerKey then some { cls := cls, category := strLower category }
      else reg.table k,
    warnings :=
      if (reg.table lowerKey).isSome then reg.warnings ++ [key]
      else reg.warnings }

/-- The pygame event classes `InputManager.process_event` distinguishes. -/
inductive EventType where
  | keyDown
  | keyUp
  | mouseButtonDown
  | other
  deriving DecidableEq, Repr

/-- An input event: its pygame type and its key code. -/
structure InputEvent where
  etype : EventType
  key : Nat
  deriving DecidableEq, Repr

/-- A registered input handler: `isInputHandler` models
`isinstance(h, IInputHandler)` and `isGlobalHandler` models
`isinstance(h, IGlobalInputHandler)` (src/interfaces.py).
`consumes` is the value the handler's `on_input` would report as a
result; `process_event` never reads it — `IInputHandler.on_input` is
declared to return `None` and the dispatch loop ignores the call result. -/
structure Handler where
  hid : Nat
  isInputHandler : Bool
  isGlobalHandler : Bool
  consumes : Bool
  deriving DecidableEq, Repr

/-- The part of the global `Config` that `process_event` reads. -/
structure InputConfig where
  globalInputKeys : List Nat
  deriving DecidableEq, Repr

/-- A call made by `InputManager.process_event`, in order. -/
inductive DispatchCall where
  | startTextInput
  | onGlobalInput (hid : Nat)
  | onInput (hid : Nat)
  deriving DecidableEq, Repr

/-- `InputManager.register_handler`: appends if not already registered. -/
def registerHandler (handlers : List Handler) (h : Handler) : List Handler :=
  if h ∈ handlers then handlers else handlers ++ [h]

/-- `InputManager.process_event` (src/managers/input_manager.py lines
46-76) as the exact sequence of calls it makes: re-enable text input on
MOUSEBUTTONDOWN; then, only for KEYDOWN events: if the key is in
`config.global_input_keys`, call `on_global_input` on every handler that
is an `IGlobalInputHandler` (in registration order) and return;
otherwise call `on_input` on every handler that is an `IInputHandler`
(in registration order) — the loop has no break and ignores results. -/
def processEvent (cfg : InputConfig) (handlers : List Handler)
    (e : InputEvent) : List DispatchCall :=
  (if e.etype = EventType.mouseButtonDown then [DispatchCall.startTextInput]
   else [])
  ++
  (if e.etype = EventType.keyDown then
    if cfg.globalInputKeys.contains e.key then
      (handlers.filter (fun h => h.isGlobalHandler)).map
        (fun h => DispatchCall.onGlobalInput h.hid)
    else
      (handlers.filter (fun h => h.isInputHandler)).map
        (fun h => DispatchCall.onInput h.hid)
   else [])

/-- A scene as the transition/draw pipeline sees it: an identity and its
`config.theme.background_color`. -/
structure SceneView where
  sid : Nat
  bgColor : Color
  deriving DecidableEq, Repr

/-- `SimpleTransition.__init__` fills the fade surface with
`(0, 0, 0)` — black — independently of either scene
(src/transitions/transitions.py line 95). -/
def fadeSurfaceColor : Color := { r := 0, g := 0, b := 0 }

/-- State of a `Transition` / `SimpleTransition`
(src/transitions/transitions.py): the two scenes, `elapsed` (starts at
0.0) and `duration`. -/
structure TransitionState where
  fromScene : SceneView
  toScene : SceneView
  elapsed : Rat
  duration : Rat
  deriving DecidableEq, Repr

/-- `Transition.is_complete`: `self.elapsed >= self.duration`. -/
def TransitionState.isComplete (t : TransitionState) : Bool :=
  decide (t.elapsed ≥ t.duration)

/-- A drawing or update effect, recorded in the order the corresponding
calls are made. `updateScene` is a `scene.update(dt)` call; `fill` is a
`screen.fill` with the named scene's background color; `drawDynamic` and
`drawPersistent` are `scene.draw_dynamic` / `scene.draw_persistent`;
`blitOverlay` is the fade-surface blit with its color and alpha. -/
inductive RenderEffect where
  | updateScene (sid : Nat) (dt : Rat)
  | fill (sid : Nat) (c : Color)
  | drawDynamic (sid : Nat)
  | blitOverlay (c : Color) (alpha : Int)
  | drawPersistent (sid : Nat)
  deriving DecidableEq, Repr

/-- `SimpleTransition.update`: `self.elapsed += dt` and then
`self.to_scene.update(dt)` — only the incoming scene is updated. -/
def TransitionState.update (t : TransitionState) (dt : Rat) :
    TransitionState × List RenderEffect :=
  ({ t with elapsed := t.elapsed + dt },
   [RenderEffect.updateScene t.toScene.sid dt])

/-- The overlay alpha of `SimpleTransition.draw`:
`progress = min(self.elapsed / self.duration, 1.0)` and
`alpha = int((1 - progress) * 255)`. Python's `int()` truncates toward
zero; since `progress ≤ 1` makes `1 - progress ≥ 0`, truncation
coincides with the floor. -/
def fadeAlpha (t : TransitionState) : Int :=
  let progress := min (t.elapsed / t.duration) 1
  ⌊(1 - progress) * 255⌋

/-- `SimpleTransition.draw` (src/transitions/transitions.py lines
108-134) as its effect trace: (1) fill the screen with the incoming
scene's background color, (2) draw the incoming scene's non-persistent
layers, (3) blit the fade surface (black) at the computed alpha,
(4) draw the incoming scene's persistent layers on top. The outgoing
scene is never drawn. -/
def TransitionState.draw (t : TransitionState) : List RenderEffect :=
  [RenderEffect.fill t.toScene.sid t.toScene.bgColor,
   RenderEffect.drawDynamic t.toScene.sid,
   RenderEffect.blitOverlay fadeSurfaceColor (fadeAlpha t),
   RenderEffect.drawPersistent t.toScene.sid]

/-- The scene an effect updates or draws, if any (the fade-surface blit
draws no scene content). -/
def RenderEffect.sceneOf : RenderEffect → Option Nat
  | RenderEffect.updateScene sid _ => some sid
  | RenderEffect.fill sid _ => some sid
  | RenderEffect.drawDynamic sid => some sid
  | RenderEffect.blitOverlay _ _ => none
  | RenderEffect.drawPersistent sid => some sid

/-- The color of the first fade-overlay blit in an effect trace. -/
def overlayColor (effs : List RenderEffect) : Option Color :=
  match effs.find? (fun e =>
      match e with
      | RenderEffect.blitOverlay _ _ => true
      | _ => false) with
  | some (RenderEffect.blitOverlay c _) => some c
  | _ => none

/-- `ACTIVE_TRANSITION = 'simple'` (src/transitions/transitions.py). -/
def ACTIVE_TRANSITION : String := "simple"

/-- The fields of `SceneManager` (src/managers/scene_manager.py) that
carry its navigation state: the `scenes` dict (name to scene), the
current scene and its key, the back-navigation `history`, and the
optional active `transition`. The layer contents of the individual
scenes (mutated by `on_enter`/`populate_layers` and by the optional
directional-control block at the end of `set_scene`) live in the scenes'
layer managers, outside these fields, and are modelled separately by
`LayerManager` above. -/
structure SceneManagerState where
  scenes : List (String × SceneView)
  currentScene : Option SceneView
  currentSceneKey : Option String
  history : List String
  transition : Option TransitionState
  deriving DecidableEq, Repr

/-- `SceneManager.__init__`: empty dict, no current scene, empty
history, no transition. -/
def SceneManagerState.initial : SceneManagerState :=
  { scenes := [], currentScene := none, currentSceneKey := none,
    history := [], transition := none }

/-- `SceneManager.add_scene`: `self.scenes[name] = scene`
(dict assignment: overwrite if the name is present, append otherwise). -/
def SceneManagerState.addScene (s : SceneManagerState) (name : String)
    (sc : SceneView) : SceneManagerState :=
  { s with scenes :=
      if s.scenes.any (fun p => p.1 == name) then
        s.scenes.map (fun p => if p.1 == name then (name, sc) else p)
      else s.scenes ++ [(name, sc)] }

/-- `SceneManager.set_scene(name, transition_type=None, duration=1.0,
push_history=True)` (src/managers/scene_manager.py lines 38-68).
`registry` is the set of keys registered in the module-global
`transition_registry`. Return immediately when `name` is unknown.
Otherwise: the new scene's `on_enter()` repopulates its layer manager
(outside this state); if `push_history` and a current key exists, append
it to history; if a scene is current, resolve the transition kind
(defaulting to `ACTIVE_TRANSITION`, lower-cased) and, when a creator is
registered, install a fresh transition from the old current scene to the
new one; in every non-early-return branch the new scene becomes current
under `name`. When no creator is found the previous `transition` field
is left as it was. -/
def setScene (registry : List String) (s : SceneManagerState)
    (name : String) (transitionType : Option String) (duration : Rat)
    (pushHistory : Bool) : SceneManagerState :=
  match s.scenes.lookup name with
  | none => s
  | some newScene =>
    let s1 :=
      if pushHistory then
        match s.currentSceneKey with
        | some k => { s with history := s.history ++ [k] }
        | none => s
      else s
    match s1.currentScene with
    | some cur =>
      let ttype := strLower (transitionType.getD ACTIVE_TRANSITION)
      if registry.contains ttype then
        { s1 with
            transition := some { fromScene := cur, toScene := newScene,
                                 elapsed := 0, duration := duration },
            currentScene := some newScene,
            currentSceneKey := some name }
      else
        { s1 with currentScene := some newScene,
                  currentSceneKey := some name }
    | none =>
      { s1 with currentScene := some newScene,
                currentSceneKey := some name }

/-- `SceneManager.on_global_input` (lines 132-142): if the history is
non-empty, pop its last entry and `set_scene` to it without pushing
history; otherwise fall back to `set_scene("menu", push_history=False)`.
The other arguments keep their Python defaults
(`transition_type=None`, `duration=1.0`). -/
def onGlobalInput (registry : List String) (s : SceneManagerState) :
    SceneManagerState :=
  match s.history.getLast? with
  | some prev =>
    setScene registry { s with history := s.history.dropLast } prev none 1 false
  | none =>
    setScene registry s "menu" none 1 false

/-- `SceneManager.update(dt=None)` (lines 99-112): default `dt` to
`1.0 / config.fps`; if a transition is active, advance it (which updates
only the incoming scene) and drop it once complete; otherwise update the
current scene, if any. Returns the new state and the update effects. -/
def smUpdate (s : SceneManagerState) (dtArg : Option Rat) (fps : Rat) :
    SceneManagerState × List RenderEffect :=
  let dt := dtArg.getD (1 / fps)
  match s.transition with
  | some t =>
    let res := t.update dt
    ((if res.1.isComplete then { s with transition := none }
      else { s with transition := some res.1 }), res.2)
  | none =>
    match s.currentScene with
    | some c => (s, [RenderEffect.updateScene c.sid dt])
    | none => (s, [])

/-- `SceneManager.draw` (lines 114-122): delegate to the active
transition when there is one; otherwise draw the current scene
(`BaseScene.draw`: background fill, then non-persistent layers, then
persistent layers). -/
def smDraw (s : SceneManagerState) : List RenderEffect :=
  match s.transition with
  | some t => t.draw
  | none =>
    match s.currentScene with
    | some c =>
      [RenderEffect.fill c.sid c.bgColor,
       RenderEffect.drawDynamic c.sid,
       RenderEffect.drawPersistent c.sid]
    | none => []

/-! Concrete instances used by the scenario claims and witnesses. -/

/-- A persistent layer. -/
def persistentLayerA : Layer :=
  { lid := 10, z := 3, persistent := true, hasOnInput := false,
    consumes := false }

/-- A non-persistent layer. -/
def transientLayerB : Layer :=
  { lid := 11, z := 1, persistent := false, hasOnInput := false,
    consumes := false }

/-- An input-capable layer with the highest ordering key, whose
`on_input` would report the event as NOT consumed. -/
def layerTop : Layer :=
  { lid := 1, z := 10, persistent := false, hasOnInput := true,
    consumes := false }

/-- A lower input-capable layer. -/
def layerBottom : Layer :=
  { lid := 2, z := 5, persistent := false, hasOnInput := true,
    consumes := true }

/-- A manager holding both input-capable layers. -/
def inputMgr : LayerManager :=
  (LayerManager.init []).addLayers [layerBottom, layerTop]

/-- A regular handler whose `on_input` would report consumption. -/
def handlerOne : Handler :=
  { hid := 1, isInputHandler := true, isGlobalHandler := false,
    consumes := true }

/-- A second regular handler, registered after `handlerOne`. -/
def handlerTwo : Handler :=
  { hid := 2, isInputHandler := true, isGlobalHandler := false,
    consumes := false }

/-- A config whose global keys are Escape (27) and Q (113), as in
`Config.global_input_keys`. -/
def sampleConfig : InputConfig := { globalInputKeys := [27, 113] }

/-- A non-global KEYDOWN event (key W = 119). -/
def sampleKeyDown : InputEvent := { etype := EventType.keyDown, key := 119 }

/-- A scene with a black background. -/
def menuScene : SceneView := { sid := 0, bgColor := { r := 0, g := 0, b := 0 } }

/-- A scene with a non-black background color. -/
def playScene : SceneView :=
  { sid := 1, bgColor := { r := 10, g := 20, b := 30 } }

/-- The transition registry as populated at import time: the module
decorates `create_simple_transition` with `@register_transition('simple')`. -/
def simpleRegistry : List String := ["simple"]

/-- A transition from `menuScene` to `playScene` with duration 1.0,
fresh (`elapsed = 0`). -/
def menuToPlay : TransitionState :=
  { fromScene := menuScene, toScene := playScene, elapsed := 0,
    duration := 1 }

/-- `menuToPlay` after `update(0.4)`. -/
def menuToPlay04 : TransitionState := (menuToPlay.update (4/10)).1

/-- `menuToPlay04` after a further `update(0.7)`. -/
def menuToPlay11 : TransitionState := (menuToPlay04.update (7/10)).1

/-- The menu-to-play transition observed at elapsed exactly 1.0. -/
def menuToPlayAtEnd : TransitionState :=
  { fromScene := menuScene, toScene := playScene, elapsed := 1,
    duration := 1 }

/-- A scene manager observed mid-transition. -/
def midTransitionState : SceneManagerState :=
  { scenes := [], currentScene := some playScene,
    currentSceneKey := some "play", history := [],
    transition := some menuToPlay }

/-- The C4 scenario, step 0: fresh manager with "menu" and "play"
registered and no current scene. -/
def scenarioS0 : SceneManagerState :=
  (SceneManagerState.initial.addScene "menu" menuScene).addScene "play" playScene

/-- Step 1: `set_scene("menu")` with Python defaults. -/
def scenarioS1 : SceneManagerState :=
  setScene simpleRegistry scenarioS0 "menu" none 1 true

/-- Step 2: `set_scene("play")`. -/
def scenarioS2 : SceneManagerState :=
  setScene simpleRegistry scenarioS1 "play" none 1 true

/-- Step 3: `on_global_input(...)`. -/
def scenarioS3 : SceneManagerState := onGlobalInput simpleRegistry scenarioS2

/-- Step 4: a further `on_global_input(...)` with empty history. -/
def scenarioS4 : SceneManagerState := onGlobalInput simpleRegistry scenarioS3

/-! ### Helper lemmas -/

/-- The layer list after a sequence of `add_layer` calls is the original
list followed by the added layers, in order. -/
theorem addLayers_layers (ls : List Layer) : ∀ m : LayerManager,
    (m.addLayers ls).layers = m.layers ++ ls := by
  induction ls with
  | nil => intro m; simp [LayerManager.addLayers]
  | cons l ls ih =>
    intro m
    simp only [LayerManager.addLayers, List.foldl_cons] at ih ⊢
    rw [ih]
    simp [LayerManager.addLayer]

/-- `add_layer` never resets the dirty flag. -/
theorem addLayers_dirty (ls : List Layer) : ∀ m : LayerManager,
    m.dirty = true → (m.addLayers ls).dirty = true := by
  induction ls with
  | nil => intro m h; simpa [LayerManager.addLayers] using h
  | cons l ls ih =>
    intro m h
    simp only [LayerManager.addLayers, List.foldl_cons]
    exact ih (m.addLayer l) rfl

/-- The layer comparison is transitive. -/
theorem layerLE_trans (a b c : Layer) (hab : layerLE a b = true)
    (hbc : layerLE b c = true) : layerLE a c = true := by
  simp only [layerLE, decide_eq_true_eq] at *
  omega

/-- The layer comparison is total. -/
theorem layerLE_total (a b : Layer) : (layerLE a b || layerLE b a) = true := by
  simp only [layerLE, Bool.or_eq_true, decide_eq_true_eq]
  omega

/-- On a dirty manager, `get_sorted_layers` returns the freshly computed
stable sort of the layer list (reversed when asked to). -/
theorem getSortedLayers_of_dirty (m : LayerManager) (rev : Bool)
    (h : m.dirty = true) :
    (m.getSortedLayers rev).1 =
      if rev then (m.layers.mergeSort layerLE).reverse
      else m.layers.mergeSort layerLE := by
  simp [LayerManager.getSortedLayers, LayerManager.sortLayers, h]

/-- Stability of the sort, as preservation of every equal-key fiber:
filtering the sorted list to one `z` value gives exactly the same
sequence as filtering the input. -/
theorem mergeSort_filter_z (l : List Layer) (k : Int) :
    (l.mergeSort layerLE).filter (fun a => a.z == k)
      = l.filter (fun a => a.z == k) := by
  have hpw : (l.filter (fun a => a.z == k)).Pairwise
      (fun a b : Layer => layerLE a b) := by
    apply List.pairwise_of_forall_mem_list
    intro a ha b hb
    have ha2 := (List.mem_filter.mp ha).2
    have hb2 := (List.mem_filter.mp hb).2
    simp only [beq_iff_eq] at ha2 hb2
    simp [layerLE, ha2, hb2]
  have hsub : List.Sublist (l.filter (fun a => a.z == k))
      (l.mergeSort layerLE) :=
    List.sublist_mergeSort layerLE_trans layerLE_total hpw
      (List.filter_sublist l)
  have hself : (l.filter (fun a => a.z == k)).filter (fun a => a.z == k)
      = l.filter (fun a => a.z == k) :=
    List.filter_eq_self.mpr (fun a ha => (List.mem_filter.mp ha).2)
  have hsub2 : List.Sublist (l.filter (fun a => a.z == k))
      ((l.mergeSort layerLE).filter (fun a => a.z == k)) := by
    have h2 := hsub.filter (fun a => a.z == k)
    rwa [hself] at h2
  have hperm : List.Perm ((l.mergeSort layerLE).filter (fun a => a.z == k))
      (l.filter (fun a => a.z == k)) :=
    (List.mergeSort_perm l layerLE).filter _
  exact (hsub2.eq_of_length hperm.length_eq.symm).symm

/-! ### Claims -/

/-- C1: for every LayerManager and every sequence of `add_layer` calls in
arbitrary order, `get_sorted_layers()` is non-decreasing in the layers'
order key `z`, and layers with equal order keys appear in their relative
insertion order (stable sort: every equal-`z` fiber of the output equals
the corresponding fiber of the insertion sequence). -/
theorem sortedLayers_nondecreasing_and_stable (init adds : List Layer)
    (k : Int) :
    ((((LayerManager.init init).addLayers adds).getSortedLayers false).1.Pairwise
        (fun a b => a.z ≤ b.z))
    ∧ (((LayerManager.init init).addLayers adds).getSortedLayers false).1.filter
          (fun l => l.z == k)
        = (init ++ adds).filter (fun l => l.z == k) := by
  have hl : ((LayerManager.init init).addLayers adds).layers = init ++ adds := by
    rw [addLayers_layers]
    rfl
  have hd : ((LayerManager.init init).addLayers adds).dirty = true :=
    addLayers_dirty adds _ rfl
  have hres : (((LayerManager.init init).addLayers adds).getSortedLayers false).1
      = (init ++ adds).mergeSort layerLE := by
    rw [getSortedLayers_of_dirty _ _ hd]
    simp [hl]
  rw [hres]
  constructor
  · exact (List.sorted_mergeSort layerLE_trans layerLE_total
      (init ++ adds)).imp (fun h => by
        simpa [layerLE, decide_eq_true_eq] using h)
  · exact mergeSort_filter_z _ k

/-- Witness for C1 at a concrete manager: two equal-key layers keep
their insertion order around a lower-key layer. -/
theorem sortedLayers_nondecreasing_and_stable_witness :
    ((((LayerManager.init [layerTop]).addLayers
        [layerBottom, persistentLayerA]).getSortedLayers false).1.Pairwise
          (fun a b => a.z ≤ b.z))
    ∧ (((LayerManager.init [layerTop]).addLayers
        [layerBottom, persistentLayerA]).getSortedLayers false).1.filter
          (fun l => l.z == (5 : Int))
        = ([layerTop] ++ [layerBottom, persistentLayerA]).filter
            (fun l => l.z == (5 : Int)) :=
  sortedLayers_nondecreasing_and_stable [layerTop]
    [layerBottom, persistentLayerA] 5

/-- C2: after adding a persistent layer `A` and a non-persistent layer
`B` to a fresh manager, `clear()` leaves exactly `[A]`; and `clear` is a
total operation that can be repeated freely (a second `clear` is the
identity on the already-cleared state). -/
theorem clear_retains_only_persistent (A B : Layer)
    (hA : A.persistent = true) (hB : B.persistent = false) :
    ((((LayerManager.init []).addLayer A).addLayer B).clear).layers = [A]
    ∧ ∀ m : LayerManager, m.clear.clear = m.clear := by
  constructor
  · simp [LayerManager.init, LayerManager.addLayer, LayerManager.clear,
      hA, hB]
  · intro m
    have hself : (m.layers.filter (fun l => l.persistent)).filter
        (fun l => l.persistent) = m.layers.filter (fun l => l.persistent) :=
      List.filter_eq_self.mpr (fun a ha => (List.mem_filter.mp ha).2)
    simp [LayerManager.clear, hself]

/-- Witness for C2: the concrete persistent/transient pair. -/
theorem clear_retains_only_persistent_witness :
    ((((LayerManager.init []).addLayer persistentLayerA).addLayer
        transientLayerB).clear).layers = [persistentLayerA]
    ∧ ∀ m : LayerManager, m.clear.clear = m.clear :=
  clear_retains_only_persistent persistentLayerA transientLayerB rfl rfl

/-- C3: registering two different layer factories under keys that agree
up to case makes the second registration overwrite the first — a lookup
of the lowercased key resolves to the second factory — and the duplicate
registration appends a diagnostic warning instead of raising (the
function is total and still performs the overwrite). -/
theorem register_last_writer_wins (reg : LayerRegistry)
    (k1 k2 cat1 cat2 : String) (c1 c2 : Nat)
    (hk : strLower k1 = strLower k2) (hne : c1 ≠ c2) :
    (registerLayer (registerLayer reg k1 cat1 c1) k2 cat2 c2).table
        (strLower k2) = some { cls := c2, category := strLower cat2 }
    ∧ (registerLayer (registerLayer reg k1 cat1 c1) k2 cat2 c2).warnings
        = (registerLayer reg k1 cat1 c1).warnings ++ [k2] := by
  constructor
  · simp [registerLayer]
  · simp [registerLayer, ← hk]

/-- Witness for C3: registering factory 1 under "Snow" and then factory
2 under "snow". -/
theorem register_last_writer_wins_witness :
    (registerLayer (registerLayer LayerRegistry.empty "Snow" "effect" 1)
        "snow" "effect" 2).table (strLower "snow")
      = some { cls := 2, category := strLower "effect" }
    ∧ (registerLayer (registerLayer LayerRegistry.empty "Snow" "effect" 1)
        "snow" "effect" 2).warnings
      = (registerLayer LayerRegistry.empty "Snow" "effect" 1).warnings
          ++ ["snow"] :=
  register_last_writer_wins LayerRegistry.empty "Snow" "snow" "effect"
    "effect" 1 2 (by decide) (by decide)

/-- C4: on a fresh SceneManager with "menu" and "play" registered and no
current scene: `set_scene("menu")` makes the key "menu" with empty
history; `set_scene("play")` makes the key "play" with history
`["menu"]`; `on_global_input` returns to "menu" with empty history; and
a further `on_global_input` on empty history falls back to "menu" again
without pushing anything. -/
theorem scene_history_scenario :
    scenarioS1.currentSceneKey = some "menu" ∧ scenarioS1.history = []
    ∧ scenarioS2.currentSceneKey = some "play"
    ∧ scenarioS2.history = ["menu"]
    ∧ scenarioS3.currentSceneKey = some "menu" ∧ scenarioS3.history = []
    ∧ scenarioS4.currentSceneKey = some "menu" ∧ scenarioS4.history = [] := by
  decide

/-- C9: `set_scene` with a name that is not in the scene map is a silent
no-op: it returns the state unchanged in every field (current scene,
current key, history, active transition), whatever the other arguments. -/
theorem setScene_unknown_is_noop (registry : List String)
    (s : SceneManagerState) (name : String) (ttype : Option String)
    (duration : Rat) (push : Bool)
    (h : s.scenes.lookup name = none) :
    setScene registry s name ttype duration push = s := by
  unfold setScene
  rw [h]

/-- Witness for C9: an unknown name on the fresh manager. -/
theorem setScene_unknown_is_noop_witness :
    setScene simpleRegistry SceneManagerState.initial "nowhere" none 1
        true = SceneManagerState.initial :=
  setScene_unknown_is_noop simpleRegistry SceneManagerState.initial
    "nowhere" none 1 true rfl

/-- C8: a transition with duration 1.0, updated by 0.4 and then by 0.7,
has elapsed 1.1 and reports completion (1.1 >= 1.0); and the overlay
alpha at elapsed exactly 1.0 is exactly 0 (progress clamps to 1). -/
theorem transition_overshoot_complete_alpha_zero :
    menuToPlay11.elapsed = 11/10
    ∧ menuToPlay11.isComplete = true
    ∧ fadeAlpha menuToPlayAtEnd = 0 := by
  refine ⟨by norm_num [menuToPlay11, menuToPlay04, menuToPlay,
      TransitionState.update], ?_, ?_⟩
  · simp only [TransitionState.isComplete, menuToPlay11, menuToPlay04,
      menuToPlay, TransitionState.update, decide_eq_true_eq, ge_iff_le]
    norm_num
  · simp only [fadeAlpha, menuToPlayAtEnd]
    norm_num

/-- C7 counterexample: the fade overlay surface is filled with black in
`SimpleTransition.__init__`, so for a transition whose incoming scene
has background color (10, 20, 30) the overlay color is (0, 0, 0), not
the incoming scene's background color as claimed. -/
theorem fade_overlay_black_counterexample :
    overlayColor (TransitionState.draw menuToPlay) = some fadeSurfaceColor
    ∧ fadeSurfaceColor = { r := 0, g := 0, b := 0 }
    ∧ menuToPlay.toScene.bgColor = { r := 10, g := 20, b := 30 }
    ∧ overlayColor (TransitionState.draw menuToPlay)
        ≠ some menuToPlay.toScene.bgColor := by
  refine ⟨rfl, rfl, rfl, ?_⟩
  intro h
  rw [show overlayColor (TransitionState.draw menuToPlay)
      = some fadeSurfaceColor from rfl] at h
  simp [fadeSurfaceColor, menuToPlay, playScene] at h

/-- C7 amended: in every transition draw the screen is first filled with
the incoming scene's background color, but the fade overlay itself is
black; the overlay is blitted after (over) the incoming scene's
non-persistent layers and before (under) its persistent layers. -/
theorem fade_overlay_pipeline (t : TransitionState) :
    overlayColor t.draw = some { r := 0, g := 0, b := 0 }
    ∧ ∃ pre post,
        t.draw = pre
          ++ RenderEffect.blitOverlay fadeSurfaceColor (fadeAlpha t) :: post
        ∧ RenderEffect.fill t.toScene.sid t.toScene.bgColor ∈ pre
        ∧ RenderEffect.drawDynamic t.toScene.sid ∈ pre
        ∧ RenderEffect.drawPersistent t.toScene.sid ∈ post := by
  refine ⟨rfl,
    [RenderEffect.fill t.toScene.sid t.toScene.bgColor,
     RenderEffect.drawDynamic t.toScene.sid],
    [RenderEffect.drawPersistent t.toScene.sid], rfl, ?_, ?_, ?_⟩ <;> simp

/-- C5 counterexample: with two regular handlers [H1, H2] where H1's
`on_input` would report the event as consumed, `process_event` still
invokes H2 for a non-global key-down event — the dispatch loop has no
short-circuit and never reads the result. -/
theorem processEvent_no_short_circuit_counterexample :
    handlerOne.consumes = true
    ∧ processEvent sampleConfig [handlerOne, handlerTwo] sampleKeyDown
        = [DispatchCall.onInput 1, DispatchCall.onInput 2]
    ∧ DispatchCall.onInput handlerTwo.hid
        ∈ processEvent sampleConfig [handlerOne, handlerTwo] sampleKeyDown := by
  decide

/-- C5 amended: for a KEYDOWN event whose key is in the global-key set,
exactly the handlers with the global-input capability are invoked, in
registration order, and regular handlers are skipped; for a non-global
KEYDOWN event, every handler with the regular-input capability is
invoked, in registration order, regardless of what any handler's
`on_input` would report — the dispatch does not depend on the
`consumes` values at all. -/
theorem processEvent_dispatch_all_capable (cfg : InputConfig)
    (handlers : List Handler) (e : InputEvent)
    (hkd : e.etype = EventType.keyDown) :
    (cfg.globalInputKeys.contains e.key = true →
      processEvent cfg handlers e
        = (handlers.filter (fun h => h.isGlobalHandler)).map
            (fun h => DispatchCall.onGlobalInput h.hid))
    ∧ (cfg.globalInputKeys.contains e.key = false →
      processEvent cfg handlers e
        = (handlers.filter (fun h => h.isInputHandler)).map
            (fun h => DispatchCall.onInput h.hid))
    ∧ ∀ g : Handler → Bool,
        processEvent cfg
            (handlers.map (fun h => { h with consumes := g h })) e
          = processEvent cfg handlers e := by
  refine ⟨fun h => ?_, fun h => ?_, fun g => ?_⟩
  · have hmem : e.key ∈ cfg.globalInputKeys := by simpa using h
    simp [processEvent, hkd, hmem]
  · have hmem : e.key ∉ cfg.globalInputKeys := by simpa using h
    simp [processEvent, hkd, hmem]
  · simp only [processEvent, List.filter_map, List.map_map]
    rfl

/-- Witness for C5 (amended): the concrete handler pair and non-global
key-down event. -/
theorem processEvent_dispatch_all_capable_witness :
    (sampleConfig.globalInputKeys.contains sampleKeyDown.key = true →
      processEvent sampleConfig [handlerOne, handlerTwo] sampleKeyDown
        = ([handlerOne, handlerTwo].filter (fun h => h.isGlobalHandler)).map
            (fun h => DispatchCall.onGlobalInput h.hid))
    ∧ (sampleConfig.globalInputKeys.contains sampleKeyDown.key = false →
      processEvent sampleConfig [handlerOne, handlerTwo] sampleKeyDown
        = ([handlerOne, handlerTwo].filter (fun h => h.isInputHandler)).map
            (fun h => DispatchCall.onInput h.hid))
    ∧ ∀ g : Handler → Bool,
        processEvent sampleConfig
            ([handlerOne, handlerTwo].map (fun h => { h with consumes := g h }))
            sampleKeyDown
          = processEvent sampleConfig [handlerOne, handlerTwo] sampleKeyDown :=
  processEvent_dispatch_all_capable sampleConfig [handlerOne, handlerTwo]
    sampleKeyDown rfl

/-- Evaluation of `forward_input` on the concrete two-layer manager: the
event is delivered to the top layer only. -/
theorem forwardInput_concrete : (forwardInput inputMgr).1 = [layerTop.lid] := by
  have hstep : (forwardInput inputMgr).1
      = (match ((inputMgr.getSortedLayers true).1).find?
            (fun l => l.hasOnInput) with
         | some l => [l.lid]
         | none => []) := rfl
  have hrev : (inputMgr.getSortedLayers true).1
      = (([layerBottom, layerTop] : List Layer).mergeSort layerLE).reverse := by
    rw [getSortedLayers_of_dirty inputMgr true rfl]
    rfl
  have hms : (([layerBottom, layerTop] : List Layer).mergeSort layerLE)
      = [layerBottom, layerTop] :=
    List.mergeSort_of_sorted (by
      norm_num [List.pairwise_cons, layerLE, layerBottom, layerTop])
  rw [hstep, hrev, hms]
  rfl

/-- C6 counterexample: with a top layer (z = 10) whose `on_input`
reports the event as NOT consumed and a lower input-capable layer
(z = 5), the default forwarding delivers the event to the top layer
only and never continues to the lower layer. -/
theorem forwardInput_single_delivery_counterexample :
    layerTop.consumes = false
    ∧ (forwardInput inputMgr).1 = [layerTop.lid]
    ∧ layerBottom.lid ∉ (forwardInput inputMgr).1 := by
  refine ⟨rfl, forwardInput_concrete, ?_⟩
  rw [forwardInput_concrete]
  decide

/-- In a list whose order keys are non-increasing, the first element
satisfying a predicate has a maximal key among all elements satisfying
it. -/
theorem find_first_max_z (p : Layer → Bool) :
    ∀ l : List Layer, l.Pairwise (fun a b => b.z ≤ a.z) →
      ∀ r, l.find? p = some r → ∀ x ∈ l, p x = true → x.z ≤ r.z := by
  intro l
  induction l with
  | nil =>
    intro _ r hr
    simp at hr
  | cons a t ih =>
    intro hpair r hr x hx hpx
    rcases List.mem_cons.mp hx with hxa | hxt
    · have hpa : p a = true := hxa ▸ hpx
      have hfind : (a :: t).find? p = some a := List.find?_cons_of_pos t hpa
      rw [hfind] at hr
      cases hr
      rw [hxa]
    · by_cases hpa : p a = true
      · have hfind : (a :: t).find? p = some a := List.find?_cons_of_pos t hpa
        rw [hfind] at hr
        cases hr
        exact List.rel_of_pairwise_cons hpair hxt
      · have hr2 : t.find? p = some r := by
          rwa [List.find?_cons_of_neg t (by simpa using hpa)] at hr
        exact ih hpair.of_cons r hr2 x hxt hpx

/-- C6 amended: for every manager built by a sequence of `add_layer`
calls, the default input forwarding delivers the event to at most one
layer, and any recipient is an input-capable layer of maximal order key
among the input-capable layers — forwarding never continues to the
next-highest layer, whatever any layer's `on_input` reports. -/
theorem forwardInput_topmost_only (init adds : List Layer) :
    (forwardInput ((LayerManager.init init).addLayers adds)).1.length ≤ 1
    ∧ ∀ lid ∈ (forwardInput ((LayerManager.init init).addLayers adds)).1,
        ∃ l, l ∈ init ++ adds ∧ l.lid = lid ∧ l.hasOnInput = true
          ∧ ∀ l2 ∈ init ++ adds, l2.hasOnInput = true → l2.z ≤ l.z := by
  have hl : ((LayerManager.init init).addLayers adds).layers = init ++ adds := by
    rw [addLayers_layers]
    rfl
  have hd : ((LayerManager.init init).addLayers adds).dirty = true :=
    addLayers_dirty adds _ rfl
  have hfi : (forwardInput ((LayerManager.init init).addLayers adds)).1
      = (match (((init ++ adds).mergeSort layerLE).reverse).find?
            (fun l => l.hasOnInput) with
         | some l => [l.lid]
         | none => []) := by
    have hg : (((LayerManager.init init).addLayers adds).getSortedLayers true).1
        = ((init ++ adds).mergeSort layerLE).reverse := by
      rw [getSortedLayers_of_dirty _ _ hd, hl]
      rfl
    rw [show (forwardInput ((LayerManager.init init).addLayers adds)).1
        = (match ((((LayerManager.init init).addLayers adds).getSortedLayers
              true).1).find? (fun l => l.hasOnInput) with
           | some l => [l.lid]
           | none => []) from rfl, hg]
  have hpair : (((init ++ adds).mergeSort layerLE).reverse).Pairwise
      (fun a b => b.z ≤ a.z) := by
    rw [List.pairwise_reverse]
    exact (List.sorted_mergeSort layerLE_trans layerLE_total
      (init ++ adds)).imp (fun h => by
        simpa [layerLE, decide_eq_true_eq] using h)
  rw [hfi]
  cases hf : (((init ++ adds).mergeSort layerLE).reverse).find?
      (fun l => l.hasOnInput) with
  | none => exact ⟨by simp, by simp⟩
  | some l =>
    refine ⟨by simp, ?_⟩
    intro lid hlid
    simp only [List.mem_singleton] at hlid
    have hmem : l ∈ init ++ adds := by
      have hmem2 := List.mem_of_find?_eq_some hf
      rw [List.mem_reverse, List.mem_mergeSort] at hmem2
      exact hmem2
    refine ⟨l, hmem, hlid.symm, List.find?_some hf, ?_⟩
    intro l2 hl2 hcap
    have hl2r : l2 ∈ ((init ++ adds).mergeSort layerLE).reverse := by
      rw [List.mem_reverse, List.mem_mergeSort]
      exact hl2
    exact find_first_max_z _ _ hpair l hf l2 hl2r hcap

/-- Witness for C6 (amended): on the concrete two-layer manager the
recipient with id 1 is the maximal-key input-capable layer. -/
theorem forwardInput_topmost_only_witness :
    ∃ l, l ∈ [] ++ [layerBottom, layerTop] ∧ l.lid = 1
      ∧ l.hasOnInput = true
      ∧ ∀ l2 ∈ [] ++ [layerBottom, layerTop],
          l2.hasOnInput = true → l2.z ≤ l.z :=
  (forwardInput_topmost_only [] [layerBottom, layerTop]).2 1 (by
    show (1 : Nat) ∈ (forwardInput inputMgr).1
    rw [forwardInput_concrete]
    decide)

/-- C10: while a transition is active, `SceneManager.update` and
`SceneManager.draw` delegate exclusively to the transition, and the
transition updates and draws only the incoming scene: every effect of
the frame touches either no scene (the overlay blit) or the incoming
scene, and never the outgoing scene. -/
theorem transition_active_excludes_outgoing (s : SceneManagerState)
    (t : TransitionState) (dtArg : Option Rat) (fps : Rat)
    (ht : s.transition = some t) (hne : t.fromScene.sid ≠ t.toScene.sid) :
    (∀ e ∈ (smUpdate s dtArg fps).2,
        RenderEffect.sceneOf e = some t.toScene.sid)
    ∧ (∀ e ∈ smDraw s,
        RenderEffect.sceneOf e = none
        ∨ RenderEffect.sceneOf e = some t.toScene.sid)
    ∧ (∀ e ∈ (smUpdate s dtArg fps).2 ++ smDraw s,
        RenderEffect.sceneOf e ≠ some t.fromScene.sid) := by
  have hupd : (smUpdate s dtArg fps).2
      = [RenderEffect.updateScene t.toScene.sid (dtArg.getD (1 / fps))] := by
    simp [smUpdate, ht, TransitionState.update]
  have hdraw : smDraw s = t.draw := by
    simp [smDraw, ht]
  have hA : ∀ e ∈ (smUpdate s dtArg fps).2,
      RenderEffect.sceneOf e = some t.toScene.sid := by
    intro e he
    rw [hupd] at he
    simp only [List.mem_singleton] at he
    subst he
    rfl
  have hB : ∀ e ∈ smDraw s,
      RenderEffect.sceneOf e = none
      ∨ RenderEffect.sceneOf e = some t.toScene.sid := by
    intro e he
    rw [hdraw] at he
    simp only [TransitionState.draw, List.mem_cons,
      List.not_mem_nil, or_false] at he
    rcases he with h | h | h | h <;> subst h <;>
      simp [RenderEffect.sceneOf]
  refine ⟨hA, hB, ?_⟩
  intro e he
  rcases List.mem_append.mp he with h | h
  · rw [hA e h]
    intro hc
    injection hc with h2
    exact hne h2.symm
  · rcases hB e h with h2 | h2 <;> rw [h2]
    · intro hc
      cases hc
    · intro hc
      injection hc with h3
      exact hne h3.symm

/-- Witness for C10: the concrete mid-transition manager state. -/
theorem transition_active_excludes_outgoing_witness :
    (∀ e ∈ (smUpdate midTransitionState none 60).2,
        RenderEffect.sceneOf e = some menuToPlay.toScene.sid)
    ∧ (∀ e ∈ smDraw midTransitionState,
        RenderEffect.sceneOf e = none
        ∨ RenderEffect.sceneOf e = some menuToPlay.toScene.sid)
    ∧ (∀ e ∈ (smUpdate midTransitionState none 60).2
          ++ smDraw midTransitionState,
        RenderEffect.sceneOf e ≠ some menuToPlay.fromScene.sid) :=
  transition_active_excludes_outgoing midTransitionState menuToPlay none 60
    rfl (by decide)

end PyEngine
